import Mathlib

/-!
Verification of the DOTG adaptive learner-model and question-quality scoring
engine.  Python floats are modelled as rationals (`ℚ`), on which every
arithmetic operation of the source is exact; Python lists are Lean lists,
Python dicts are insertion-ordered association lists, and Python `None` is
`Option.none`.  Each definition is a direct transcription of the function of
the same name in the source files `userProfile.py` and
`evaluation_metrics.py`.
-/

namespace DOTG

/-! ## Learner model: `userProfile.py` -/

/-- One entry of `performance_history` (the dict built in `add_response`).
`timestamp` is the `datetime.now().isoformat()` string, supplied here as an
input since it is an external effect. -/
structure Response where
  timestamp : String
  question_id : String
  correct : Bool
  time_taken : ℚ
  difficulty : String
  topic : String
  confidence : Option ℚ
  deriving Repr, DecidableEq

/-- One value of the `topics_mastery` dict: `{"correct": _, "total": _}`. -/
structure Mastery where
  correct : Nat
  total : Nat
  deriving Repr, DecidableEq

/-- The `UserProfile` object; fields in `__init__` order (which is also the
`__dict__` / JSON serialization order). -/
structure UserProfile where
  user_id : String
  performance_history : List Response
  skill_level : ℚ
  topics_mastery : List (String × Mastery)
  response_times : List ℚ
  accuracy_rate : ℚ
  current_difficulty : String
  confidence_scores : List ℚ
  deriving Repr, DecidableEq

/-- `UserProfile.__init__`. -/
def initProfile (user_id : String) : UserProfile :=
  { user_id := user_id
    performance_history := []
    skill_level := 1500
    topics_mastery := []
    response_times := []
    accuracy_rate := 0
    current_difficulty := "medium"
    confidence_scores := [] }

/-- First-match lookup in the `topics_mastery` association list
(Python dict lookup; keys are unique by construction). -/
def lookupM : List (String × Mastery) → String → Option Mastery
  | [], _ => none
  | (t, m) :: rest, topic => if t = topic then some m else lookupM rest topic

/-- `if topic not in self.topics_mastery: self.topics_mastery[topic] = {"correct": 0, "total": 0}` -/
def masteryInit (tm : List (String × Mastery)) (topic : String) :
    List (String × Mastery) :=
  match lookupM tm topic with
  | some _ => tm
  | none => tm ++ [(topic, ⟨0, 0⟩)]

/-- `self.topics_mastery[topic]["total"] += 1; if correct: ...["correct"] += 1`
(updates the first entry with the given key). -/
def masteryBump : List (String × Mastery) → String → Bool → List (String × Mastery)
  | [], _, _ => []
  | (t, m) :: rest, topic, c =>
    if t = topic then
      (t, ⟨m.correct + (if c then 1 else 0), m.total + 1⟩) :: rest
    else
      (t, m) :: masteryBump rest topic c

/-- `UserProfile._update_skill_level`, reading the already-updated
`response_times`.  Python `if confidence` is truthiness: `None` and `0` both
take the `1.0` branch. -/
def updateSkillLevel (p : UserProfile) (correct : Bool) (difficulty : String)
    (time_taken : ℚ) (confidence : Option ℚ) : ℚ :=
  let multiplier : ℚ :=
    if difficulty = "easy" then 0.8
    else if difficulty = "medium" then 1.0
    else if difficulty = "hard" then 1.2
    else 1.0
  let base_change := 30 * multiplier
  let avg_time : ℚ :=
    if p.response_times = [] then 30
    else p.response_times.sum / (p.response_times.length : ℚ)
  let time_factor : ℚ :=
    if 0 < time_taken then max 0.5 (min 1.5 (avg_time / time_taken)) else 1.0
  let confidence_factor : ℚ :=
    match confidence with
    | some c => if c = 0 then 1.0 else c / 5
    | none => 1.0
  let skill_change : ℚ :=
    if correct then base_change * time_factor * confidence_factor
    else -base_change * confidence_factor
  max 800 (min 2200 (p.skill_level + skill_change))

/-- `UserProfile.add_response`; the argument record `r` carries the call
arguments together with the externally produced timestamp, and is exactly the
dict appended to `performance_history`. -/
def addResponse (p : UserProfile) (r : Response) : UserProfile :=
  let hist := p.performance_history ++ [r]
  let times := p.response_times ++ [r.time_taken]
  let tm := masteryBump (masteryInit p.topics_mastery r.topic) r.topic r.correct
  let total := hist.length
  let correct_count := (hist.filter (fun e => e.correct)).length
  let acc : ℚ := if 0 < total then (correct_count : ℚ) / (total : ℚ) else 0
  let confs :=
    match r.confidence with
    | some c => if c = 0 then p.confidence_scores else p.confidence_scores ++ [c]
    | none => p.confidence_scores
  let p' := { p with
    performance_history := hist
    response_times := times
    topics_mastery := tm
    accuracy_rate := acc
    confidence_scores := confs }
  { p' with
    skill_level := updateSkillLevel p' r.correct r.difficulty r.time_taken r.confidence }

/-- A finite sequence of `add_response` calls applied in order. -/
def applyCalls (p : UserProfile) (rs : List Response) : UserProfile :=
  rs.foldl addResponse p

/-! ### C1: skill level bounds -/

theorem addResponse_skill_bounds (p : UserProfile) (r : Response) :
    800 ≤ (addResponse p r).skill_level ∧ (addResponse p r).skill_level ≤ 2200 := by
  have h : (addResponse p r).skill_level =
      max 800 (min 2200 (p.skill_level +
        (if r.correct then _ * _ * _ else -_ * _))) := rfl
  constructor
  · exact le_max_left _ _
  · exact max_le (by norm_num) (min_le_left _ _)

theorem applyCalls_append_one (p : UserProfile) (rs : List Response) (r : Response) :
    applyCalls p (rs ++ [r]) = addResponse (applyCalls p rs) r := by
  simp [applyCalls, List.foldl_append]

/-- C1: for every finite sequence of `add_response` calls, whatever the
arguments, the skill level lies in `[800, 2200]` after every call (every
prefix of the sequence ending in a call), starting from the default profile
with skill 1500. -/
theorem c1_skill_level_always_bounded (uid : String) (pre : List Response) (r : Response) :
    800 ≤ (applyCalls (initProfile uid) (pre ++ [r])).skill_level ∧
      (applyCalls (initProfile uid) (pre ++ [r])).skill_level ≤ 2200 := by
  rw [applyCalls_append_one]
  exact addResponse_skill_bounds _ _

/-! ### C2: the skill-update formula -/

theorem addResponse_history (p : UserProfile) (r : Response) :
    (addResponse p r).performance_history = p.performance_history ++ [r] := rfl

theorem addResponse_times (p : UserProfile) (r : Response) :
    (addResponse p r).response_times = p.response_times ++ [r.time_taken] := rfl

theorem addResponse_mastery (p : UserProfile) (r : Response) :
    (addResponse p r).topics_mastery =
      masteryBump (masteryInit p.topics_mastery r.topic) r.topic r.correct := rfl

/-- The post-call skill value exactly as claim C2 words it, amended only in
the confidence clause: `confidence_factor = confidence/5` when a *nonzero*
confidence is provided, and `1.0` when it is absent or zero (the code tests
Python truthiness, under which `confidence=0` behaves like `None`).  The
average response time is taken over the history including the just-appended
`time_taken`, so no emptiness guard is needed. -/
def claimSkillAfter (p : UserProfile) (r : Response) : ℚ :=
  let multiplier : ℚ :=
    if r.difficulty = "easy" then 0.8
    else if r.difficulty = "medium" then 1.0
    else if r.difficulty = "hard" then 1.2
    else 1.0
  let base_change := 30 * multiplier
  let times := p.response_times ++ [r.time_taken]
  let avg := times.sum / (times.length : ℚ)
  let time_factor : ℚ :=
    if 0 < r.time_taken then max 0.5 (min 1.5 (avg / r.time_taken)) else 1.0
  let confidence_factor : ℚ :=
    match r.confidence with
    | some c => if c = 0 then 1.0 else c / 5
    | none => 1.0
  let delta : ℚ :=
    if r.correct then base_change * time_factor * confidence_factor
    else -base_change * confidence_factor
  max 800 (min 2200 (p.skill_level + delta))

/-- C2 (counterexample): the claim as stated fails when a confidence of `0`
is supplied.  On a first correct answer with `time_taken = 10`,
`difficulty = "medium"`, `confidence = 0`, the code yields skill `1530`
(confidence factor `1.0` by truthiness), while the claim's formula
`confidence_factor = confidence/5.0 = 0` predicts `clamp(1500 + 0) = 1500`. -/
theorem c2_counterexample :
    (addResponse (initProfile "u")
        ⟨"t0", "q0", true, 10, "medium", "algebra", some 0⟩).skill_level = 1530 ∧
      max (800 : ℚ) (min 2200 (1500 + 30 * 1.0 * ((0 : ℚ) / 5))) = 1500 ∧
      (1530 : ℚ) ≠ 1500 := by
  refine ⟨?_, by norm_num, by norm_num⟩
  have hme : ¬("medium" = "easy") := by decide
  norm_num [addResponse, updateSkillLevel, initProfile, hme, max_def, min_def]

/-- C2 (amended): after each `add_response` the skill level equals the
clamped Elo-like update described by the claim, with the confidence factor
amended to Python truthiness (`1.0` when confidence is absent *or zero*). -/
theorem c2_skill_update_formula (p : UserProfile) (r : Response) :
    (addResponse p r).skill_level = claimSkillAfter p r := by
  have h : p.response_times ++ [r.time_taken] ≠ [] := by simp
  simp only [addResponse, updateSkillLevel, claimSkillAfter, if_neg h]

/-! ### C3: accuracy is the exact fraction -/

/-- Number of responses recorded as correct. -/
def countCorrect (rs : List Response) : Nat :=
  (rs.filter (fun r => r.correct)).length

theorem history_applyCalls (rs : List Response) (p : UserProfile) :
    (applyCalls p rs).performance_history = p.performance_history ++ rs := by
  induction rs generalizing p with
  | nil => simp [applyCalls]
  | cons r rs ih =>
    show (applyCalls (addResponse p r) rs).performance_history = _
    rw [ih, addResponse_history]
    simp

theorem addResponse_accuracy (p : UserProfile) (r : Response) :
    (addResponse p r).accuracy_rate =
      ((countCorrect (p.performance_history ++ [r]) : ℚ)) /
        (((p.performance_history ++ [r]).length : ℚ)) := by
  have h : 0 < (p.performance_history ++ [r]).length := by simp
  simp only [addResponse, countCorrect, if_pos h]

/-- C3: after every `add_response` call the accuracy rate is the exact
fraction of correct responses over the whole history: after the calls
`pre ++ [r]` (any `N = pre.length + 1 ≥ 1` responses) it equals
`#correct / N`. -/
theorem c3_accuracy_exact_fraction (uid : String) (pre : List Response) (r : Response) :
    (applyCalls (initProfile uid) (pre ++ [r])).accuracy_rate =
      (countCorrect (pre ++ [r]) : ℚ) / (((pre ++ [r]).length : ℚ)) := by
  rw [applyCalls_append_one, addResponse_accuracy, history_applyCalls]
  rfl

/-! ### C4: bookkeeping invariant -/

/-- `topics_mastery[t].total`, `0` when the topic is absent. -/
def totalFor (tm : List (String × Mastery)) (t : String) : Nat :=
  ((lookupM tm t).map Mastery.total).getD 0

/-- `topics_mastery[t].correct`, `0` when the topic is absent. -/
def correctFor (tm : List (String × Mastery)) (t : String) : Nat :=
  ((lookupM tm t).map Mastery.correct).getD 0

/-- `sum(topics_mastery[*].total)`. -/
def sumTotals (tm : List (String × Mastery)) : Nat :=
  (tm.map (fun e => e.2.total)).sum

/-- Number of recorded responses with the given topic. -/
def countTopic (rs : List Response) (t : String) : Nat :=
  (rs.filter (fun r => r.topic = t)).length

theorem lookupM_append_of_none {l₁ : List (String × Mastery)} {t : String}
    (h : lookupM l₁ t = none) (l₂ : List (String × Mastery)) :
    lookupM (l₁ ++ l₂) t = lookupM l₂ t := by
  induction l₁ with
  | nil => rfl
  | cons e l₁ ih =>
    obtain ⟨k, m⟩ := e
    by_cases hk : k = t
    · simp [lookupM, hk] at h
    · simp only [lookupM, if_neg hk] at h ⊢
      exact ih h

theorem lookupM_append_of_some {l₁ : List (String × Mastery)} {t : String}
    {m : Mastery} (h : lookupM l₁ t = some m) (l₂ : List (String × Mastery)) :
    lookupM (l₁ ++ l₂) t = some m := by
  induction l₁ with
  | nil => simp [lookupM] at h
  | cons e l₁ ih =>
    obtain ⟨k, m'⟩ := e
    by_cases hk : k = t
    · simp only [lookupM, if_pos hk] at h ⊢
      exact h
    · simp only [lookupM, if_neg hk] at h ⊢
      exact ih h

theorem lookupM_masteryInit_isSome (tm : List (String × Mastery)) (t : String) :
    (lookupM (masteryInit tm t) t).isSome := by
  unfold masteryInit
  cases h : lookupM tm t with
  | some m => simp [h]
  | none => rw [lookupM_append_of_none h]; simp [lookupM]

theorem sumTotals_masteryInit (tm : List (String × Mastery)) (t : String) :
    sumTotals (masteryInit tm t) = sumTotals tm := by
  unfold masteryInit
  cases h : lookupM tm t with
  | some m => rfl
  | none => simp [sumTotals]

theorem totalFor_masteryInit (tm : List (String × Mastery)) (t t' : String) :
    totalFor (masteryInit tm t) t' = totalFor tm t' := by
  unfold masteryInit
  cases h : lookupM tm t with
  | some m => rfl
  | none =>
    unfold totalFor
    cases h' : lookupM tm t' with
    | some m' => rw [lookupM_append_of_some h']
    | none =>
      rw [lookupM_append_of_none h']
      by_cases ht : t = t' <;> simp [lookupM, ht, h']

theorem correctFor_masteryInit (tm : List (String × Mastery)) (t t' : String) :
    correctFor (masteryInit tm t) t' = correctFor tm t' := by
  unfold masteryInit
  cases h : lookupM tm t with
  | some m => rfl
  | none =>
    unfold correctFor
    cases h' : lookupM tm t' with
    | some m' => rw [lookupM_append_of_some h']
    | none =>
      rw [lookupM_append_of_none h']
      by_cases ht : t = t' <;> simp [lookupM, ht, h']

theorem sumTotals_masteryBump (tm : List (String × Mastery)) (t : String) (c : Bool)
    (h : (lookupM tm t).isSome) :
    sumTotals (masteryBump tm t c) = sumTotals tm + 1 := by
  induction tm with
  | nil => simp [lookupM] at h
  | cons e tm ih =>
    obtain ⟨k, m⟩ := e
    by_cases hk : k = t
    · simp only [masteryBump, if_pos hk, sumTotals, List.map_cons, List.sum_cons]
      omega
    · simp only [lookupM, if_neg hk] at h
      simp only [masteryBump, if_neg hk, sumTotals, List.map_cons, List.sum_cons]
      have := ih h
      simp only [sumTotals] at this
      omega

theorem totalFor_masteryBump_self (tm : List (String × Mastery)) (t : String) (c : Bool)
    (h : (lookupM tm t).isSome) :
    totalFor (masteryBump tm t c) t = totalFor tm t + 1 := by
  induction tm with
  | nil => simp [lookupM] at h
  | cons e tm ih =>
    obtain ⟨k, m⟩ := e
    by_cases hk : k = t
    · simp [masteryBump, if_pos hk, totalFor, lookupM]
    · simp only [lookupM, if_neg hk] at h
      simp only [masteryBump, if_neg hk, totalFor, lookupM]
      exact ih h

theorem totalFor_masteryBump_other (tm : List (String × Mastery)) (t t' : String)
    (c : Bool) (h : t' ≠ t) :
    totalFor (masteryBump tm t c) t' = totalFor tm t' := by
  induction tm with
  | nil => rfl
  | cons e tm ih =>
    obtain ⟨k, m⟩ := e
    by_cases hk : k = t
    · have hk' : ¬k = t' := by rw [hk]; exact fun hh => h hh.symm
      simp [masteryBump, if_pos hk, totalFor, lookupM, hk']
    · simp only [masteryBump, if_neg hk, totalFor, lookupM]
      by_cases hk2 : k = t'
      · simp [hk2]
      · simp only [if_neg hk2]
        exact ih

theorem correctFor_masteryBump_self (tm : List (String × Mastery)) (t : String) (c : Bool)
    (h : (lookupM tm t).isSome) :
    correctFor (masteryBump tm t c) t = correctFor tm t + (if c then 1 else 0) := by
  induction tm with
  | nil => simp [lookupM] at h
  | cons e tm ih =>
    obtain ⟨k, m⟩ := e
    by_cases hk : k = t
    · simp [masteryBump, if_pos hk, correctFor, lookupM]
    · simp only [lookupM, if_neg hk] at h
      simp only [masteryBump, if_neg hk, correctFor, lookupM]
      exact ih h

theorem correctFor_masteryBump_other (tm : List (String × Mastery)) (t t' : String)
    (c : Bool) (h : t' ≠ t) :
    correctFor (masteryBump tm t c) t' = correctFor tm t' := by
  induction tm with
  | nil => rfl
  | cons e tm ih =>
    obtain ⟨k, m⟩ := e
    by_cases hk : k = t
    · have hk' : ¬k = t' := by rw [hk]; exact fun hh => h hh.symm
      simp [masteryBump, if_pos hk, correctFor, lookupM, hk']
    · simp only [masteryBump, if_neg hk, correctFor, lookupM]
      by_cases hk2 : k = t'
      · simp [hk2]
      · simp only [if_neg hk2]
        exact ih

theorem countTopic_append_one (rs : List Response) (r : Response) (t : String) :
    countTopic (rs ++ [r]) t = countTopic rs t + (if r.topic = t then 1 else 0) := by
  simp only [countTopic, List.filter_append, List.length_append]
  congr 1
  by_cases h : r.topic = t <;> simp [List.filter, h]

/-- The bookkeeping invariant maintained by `add_response`. -/
def profileInv (p : UserProfile) : Prop :=
  p.performance_history.length = p.response_times.length ∧
  p.response_times.length = sumTotals p.topics_mastery ∧
  (∀ t, totalFor p.topics_mastery t = countTopic p.performance_history t) ∧
  (∀ t, correctFor p.topics_mastery t ≤ totalFor p.topics_mastery t)

theorem profileInv_init (uid : String) : profileInv (initProfile uid) :=
  ⟨rfl, rfl, fun _ => rfl, fun _ => le_refl _⟩

theorem profileInv_step (p : UserProfile) (r : Response) (h : profileInv p) :
    profileInv (addResponse p r) := by
  obtain ⟨h1, h2, h3, h4⟩ := h
  have hsome := lookupM_masteryInit_isSome p.topics_mastery r.topic
  refine ⟨?_, ?_, ?_, ?_⟩
  · rw [addResponse_history, addResponse_times]
    simp [h1]
  · rw [addResponse_times, addResponse_mastery]
    rw [sumTotals_masteryBump _ _ _ hsome, sumTotals_masteryInit]
    simp [h2]
  · intro t
    rw [addResponse_history, addResponse_mastery, countTopic_append_one]
    by_cases ht : t = r.topic
    · subst ht
      rw [totalFor_masteryBump_self _ _ _ hsome, totalFor_masteryInit, h3, if_pos rfl]
    · rw [totalFor_masteryBump_other _ _ _ _ ht, totalFor_masteryInit, h3,
        if_neg (fun hh => ht hh.symm)]
      omega
  · intro t
    rw [addResponse_mastery]
    by_cases ht : t = r.topic
    · subst ht
      rw [totalFor_masteryBump_self _ _ _ hsome, totalFor_masteryInit,
        correctFor_masteryBump_self _ _ _ hsome, correctFor_masteryInit]
      have := h4 r.topic
      by_cases hc : r.correct <;> simp [hc] <;> omega
    · rw [totalFor_masteryBump_other _ _ _ _ ht, totalFor_masteryInit,
        correctFor_masteryBump_other _ _ _ _ ht, correctFor_masteryInit]
      exact h4 t

theorem profileInv_applyCalls (cs : List Response) (p : UserProfile)
    (h : profileInv p) : profileInv (applyCalls p cs) := by
  induction cs generalizing p with
  | nil => exact h
  | cons r cs ih => exact ih (addResponse p r) (profileInv_step p r h)

/-- C4: after any sequence of `add_response` calls,
`len(performance_history) = len(response_times) = sum(topics_mastery[*].total)`,
each topic's `total` counts the recorded responses with that topic, and
`correct ≤ total` for every topic. -/
theorem c4_bookkeeping_invariant (uid : String) (cs : List Response) :
    ((applyCalls (initProfile uid) cs).performance_history.length =
        (applyCalls (initProfile uid) cs).response_times.length ∧
      (applyCalls (initProfile uid) cs).response_times.length =
        sumTotals (applyCalls (initProfile uid) cs).topics_mastery) ∧
    (∀ t, totalFor (applyCalls (initProfile uid) cs).topics_mastery t =
        countTopic (applyCalls (initProfile uid) cs).performance_history t) ∧
    ∀ t, correctFor (applyCalls (initProfile uid) cs).topics_mastery t ≤
        totalFor (applyCalls (initProfile uid) cs).topics_mastery t := by
  obtain ⟨a, b, c, d⟩ := profileInv_applyCalls cs (initProfile uid) (profileInv_init uid)
  exact ⟨⟨a, b⟩, c, d⟩

/-! ## Persistence: `UserProfile.save` / `UserProfile.load`

The JSON text layer is modelled by a JSON value type (Python's `json`
module round-trips values structurally; the concrete text encoding is the
out-of-scope persistence technology).  `save` dumps `self.__dict__`, i.e. all
eight fields in `__init__` order. -/

/-- JSON values. -/
inductive Json where
  | null
  | bool (b : Bool)
  | num (q : ℚ)
  | str (s : String)
  | arr (xs : List Json)
  | obj (kvs : List (String × Json))

def encConfidence : Option ℚ → Json
  | none => .null
  | some c => .num c

/-- JSON form of one `performance_history` entry. -/
def encResponse (r : Response) : Json :=
  .obj [("timestamp", .str r.timestamp),
        ("question_id", .str r.question_id),
        ("correct", .bool r.correct),
        ("time_taken", .num r.time_taken),
        ("difficulty", .str r.difficulty),
        ("topic", .str r.topic),
        ("confidence", encConfidence r.confidence)]

/-- JSON form of one `topics_mastery` value. -/
def encMastery (m : Mastery) : Json :=
  .obj [("correct", .num (m.correct : ℚ)), ("total", .num (m.total : ℚ))]

/-- `UserProfile.save`: `json.dump(self.__dict__, f)` as a JSON value. -/
def saveJson (p : UserProfile) : Json :=
  .obj [("user_id", .str p.user_id),
        ("performance_history", .arr (p.performance_history.map encResponse)),
        ("skill_level", .num p.skill_level),
        ("topics_mastery", .obj (p.topics_mastery.map (fun e => (e.1, encMastery e.2)))),
        ("response_times", .arr (p.response_times.map Json.num)),
        ("accuracy_rate", .num p.accuracy_rate),
        ("current_difficulty", .str p.current_difficulty),
        ("confidence_scores", .arr (p.confidence_scores.map Json.num))]

def decConfidence : Json → Option (Option ℚ)
  | .null => some none
  | .num q => some (some q)
  | _ => none

def decResponse : Json → Option Response
  | .obj [("timestamp", .str ts), ("question_id", .str qid), ("correct", .bool c),
          ("time_taken", .num tt), ("difficulty", .str d), ("topic", .str tp),
          ("confidence", jc)] =>
    (decConfidence jc).map fun conf =>
      { timestamp := ts, question_id := qid, correct := c, time_taken := tt,
        difficulty := d, topic := tp, confidence := conf }
  | _ => none

def ratFromJson : Json → Option ℚ
  | .num q => some q
  | _ => none

def natFromJson : Json → Option Nat
  | .num q => if q.den = 1 ∧ 0 ≤ q.num then some q.num.toNat else none
  | _ => none

def decMastery : Json → Option Mastery
  | .obj [("correct", jc), ("total", jt)] =>
    match natFromJson jc, natFromJson jt with
    | some c, some t => some ⟨c, t⟩
    | _, _ => none
  | _ => none

def decodeList {α : Type} (f : Json → Option α) : List Json → Option (List α)
  | [] => some []
  | x :: xs =>
    match f x, decodeList f xs with
    | some a, some as => some (a :: as)
    | _, _ => none

def decodeMasteries : List (String × Json) → Option (List (String × Mastery))
  | [] => some []
  | (t, j) :: rest =>
    match decMastery j, decodeMasteries rest with
    | some m, some ms => some ((t, m) :: ms)
    | _, _ => none

/-- A JSON object of the shape written by `save`, turned back into a
`UserProfile` (the effect of `profile.__dict__.update(data)`: every field,
`user_id` included, is taken from the file). -/
def loadFromJson : Json → Option UserProfile
  | .obj [("user_id", .str uid), ("performance_history", .arr hist),
          ("skill_level", .num sk), ("topics_mastery", .obj tm),
          ("response_times", .arr rt), ("accuracy_rate", .num acc),
          ("current_difficulty", .str cd), ("confidence_scores", .arr cf)] =>
    match decodeList decResponse hist, decodeMasteries tm,
        decodeList ratFromJson rt, decodeList ratFromJson cf with
    | some h, some tms, some rts, some cfs =>
      some { user_id := uid, performance_history := h, skill_level := sk,
             topics_mastery := tms, response_times := rts, accuracy_rate := acc,
             current_difficulty := cd, confidence_scores := cfs }
    | _, _, _, _ => none
  | _ => none

/-- Outcome of reading the profile file `user_profile_<id>.json`. -/
inductive ReadResult where
  | absent
  | unreadable
  | malformed
  | json (j : Json)

/-- An exception escaping `UserProfile.load`. -/
inductive LoadError where
  /-- `OSError`/`PermissionError` from `open` (not `FileNotFoundError`). -/
  | ioError
  /-- `json.JSONDecodeError` (a `ValueError`) from `json.load`. -/
  | jsonDecodeError
  /-- Well-formed JSON not of the shape `save` writes; Python would
  `__dict__.update` it untyped, which a typed state cannot represent.  No
  claim exercises this case. -/
  | badShape
  deriving Repr, DecidableEq

/-- `UserProfile.load`: the `try` block catches `FileNotFoundError` only, so
an absent file yields a fresh default profile while every other failure
propagates. -/
def load (user_id : String) : ReadResult → Except LoadError UserProfile
  | .absent => .ok (initProfile user_id)
  | .unreadable => .error .ioError
  | .malformed => .error .jsonDecodeError
  | .json j =>
    match loadFromJson j with
    | some p => .ok p
    | none => .error .badShape

/-! ### C5: load failure handling -/

/-- C5 (counterexample): the claim says `load` never raises and returns a
fresh default profile even for malformed or unreadable files.  In the code
only `FileNotFoundError` is caught: a file with malformed JSON content makes
`json.load` raise, and the exception escapes `load` instead of a default
profile being returned. -/
theorem c5_counterexample :
    load "u" ReadResult.malformed = Except.error LoadError.jsonDecodeError ∧
      load "u" ReadResult.malformed ≠ Except.ok (initProfile "u") :=
  ⟨rfl, fun h => Except.noConfusion h⟩

/-- C5 (amended): `load` returns a fresh default profile only when the
profile file is absent (`FileNotFoundError` is caught); an unreadable file or
malformed content makes the underlying exception propagate out of `load`. -/
theorem c5_absent_gives_default (uid : String) :
    load uid ReadResult.absent = Except.ok (initProfile uid) ∧
      load uid ReadResult.unreadable = Except.error LoadError.ioError ∧
      load uid ReadResult.malformed = Except.error LoadError.jsonDecodeError :=
  ⟨rfl, rfl, rfl⟩

/-! ### C6: save/load round trip -/

theorem decConfidence_enc (c : Option ℚ) :
    decConfidence (encConfidence c) = some c := by
  cases c <;> rfl

theorem decResponse_enc (r : Response) : decResponse (encResponse r) = some r := by
  obtain ⟨ts, qid, c, tt, d, tp, conf⟩ := r
  simp [encResponse, decResponse, decConfidence_enc]

theorem natFromJson_enc (n : Nat) : natFromJson (.num (n : ℚ)) = some n := by
  simp [natFromJson]

theorem decMastery_enc (m : Mastery) : decMastery (encMastery m) = some m := by
  obtain ⟨c, t⟩ := m
  simp [encMastery, decMastery, natFromJson_enc]

theorem decodeList_ratFromJson (l : List ℚ) :
    decodeList ratFromJson (l.map Json.num) = some l := by
  induction l with
  | nil => rfl
  | cons q l ih => simp [decodeList, ratFromJson, ih]

theorem decodeList_decResponse (l : List Response) :
    decodeList decResponse (l.map encResponse) = some l := by
  induction l with
  | nil => rfl
  | cons r l ih => simp [decodeList, decResponse_enc, ih]

theorem decodeMasteries_enc (tm : List (String × Mastery)) :
    decodeMasteries (tm.map (fun e => (e.1, encMastery e.2))) = some tm := by
  induction tm with
  | nil => rfl
  | cons e tm ih => simp [decodeMasteries, decMastery_enc, ih]

/-- C6: `save()` followed by `load(user_id)` reproduces the profile exactly —
every field (`user_id`, `performance_history`, `skill_level`,
`topics_mastery`, `response_times`, `accuracy_rate`, `current_difficulty`,
`confidence_scores`) round-trips losslessly through the JSON serialization. -/
theorem c6_save_load_roundtrip (p : UserProfile) :
    load p.user_id (ReadResult.json (saveJson p)) = Except.ok p := by
  obtain ⟨uid, hist, sk, tm, rt, acc, cd, cf⟩ := p
  simp [load, saveJson, loadFromJson, decodeList_ratFromJson,
    decodeList_decResponse, decodeMasteries_enc]

/-! ## String primitives shared by the scorer (`evaluation_metrics.py`)

ASCII models of the Python string operations used by the metric functions:
`str.split()` (split on whitespace runs, dropping empties), `str.lower`,
substring membership (`in`), non-overlapping substring count (`str.count`),
`str.strip()`, and `str.split(sep)`. -/

/-- Python whitespace for `str.split()` / `\s` (ASCII part). -/
def isWs (c : Char) : Bool :=
  c = ' ' || c = '\t' || c = '\n' || c = '\r' || c = Char.ofNat 11 || c = Char.ofNat 12

def pySplitGo (cur : List Char) : List Char → List (List Char)
  | [] => if cur.isEmpty then [] else [cur.reverse]
  | c :: cs =>
    if isWs c then
      if cur.isEmpty then pySplitGo [] cs else cur.reverse :: pySplitGo [] cs
    else pySplitGo (c :: cur) cs

/-- `s.split()`. -/
def pySplit (s : String) : List String := (pySplitGo [] s.data).map List.asString

/-- `s.lower()` (ASCII). -/
def pyLower (s : String) : String := (s.data.map Char.toLower).asString

/-- `pat in s` on character lists. -/
def containsSub (pat : List Char) : List Char → Bool
  | [] => pat.isEmpty
  | c :: cs => pat.isPrefixOf (c :: cs) || containsSub pat cs

def countOccurGo (pat : List Char) : List Char → Nat → Nat
  | [], _ => 0
  | c :: cs, skip =>
    if 0 < skip then countOccurGo pat cs (skip - 1)
    else if pat.isPrefixOf (c :: cs) then 1 + countOccurGo pat cs (pat.length - 1)
    else countOccurGo pat cs 0

/-- `s.count(pat)`: non-overlapping occurrences, scanning left to right
(the patterns counted in the source are all nonempty). -/
def countOccur (pat : List Char) (s : List Char) : Nat :=
  if pat.isEmpty then 0 else countOccurGo pat s 0

/-- `s.strip()`. -/
def pyStrip (s : String) : String :=
  (((s.data.dropWhile isWs).reverse.dropWhile isWs).reverse).asString

/-- `s.split(sep)` for a one-character separator, keeping empty pieces. -/
def splitOnChar (sep : Char) : List Char → List (List Char)
  | [] => [[]]
  | c :: cs =>
    if c = sep then [] :: splitOnChar sep cs
    else
      match splitOnChar sep cs with
      | g :: gs => (c :: g) :: gs
      | [] => [[c]]

/-- `set(s.lower().split())`. -/
def tokenSet (s : String) : Finset String := (pySplit (pyLower s)).toFinset

/-- A value in a metric bundle: Python float/int, string label, or list of
floats. -/
inductive MetricValue where
  | num (q : ℚ)
  | str (s : String)
  | list (qs : List ℚ)
  deriving Repr, DecidableEq

/-- Dict lookup in a metric bundle (keys within one bundle are distinct). -/
def bGet : List (String × MetricValue) → String → Option MetricValue
  | [], _ => none
  | (k, v) :: rest, key => if k = key then some v else bGet rest key

/-! ## `calculate_clarity` -/

/-- `' '.join(s.split())`. -/
def normalizeWs (s : String) : String := String.intercalate " " (pySplit s)

def ambiguousWords : List String :=
  ["maybe", "perhaps", "possibly", "might", "could", "some", "somewhat",
   "kind of", "sort of", "various"]

def interrogativeWords : List String :=
  ["what", "which", "how", "why", "when", "who", "where"]

/-- The negation markers of component 6; the second entry is the Python
string `n` + apostrophe + `t`. -/
def negationWords : List String :=
  ["not", String.mk ['n', Char.ofNat 39, 't'], "never", "no ", "none", "neither"]

/-- The ambiguous-word count as the code computes it:
`sum(1 for word in ambiguous_words if word in question_text.lower())` — the
number of list entries that occur at least once as a substring of the
whitespace-normalized, lowercased text (each entry contributes at most 1). -/
def clarityAmbCount (s : String) : Nat :=
  (ambiguousWords.filter
    (fun w => containsSub w.data (pyLower (normalizeWs s)).data)).length

/-- `calculate_clarity`. -/
def calculate_clarity (question_text : String) : List (String × MetricValue) :=
  let qt := normalizeWs question_text
  let word_count := (pySplit qt).length
  let length_score : ℚ :=
    if 10 ≤ word_count ∧ word_count ≤ 25 then 1.0
    else if (5 ≤ word_count ∧ word_count < 10) ∨ (25 < word_count ∧ word_count ≤ 35) then 0.7
    else 0.4
  let question_mark_score : ℚ := if qt.data.contains '?' then 1.0 else 0.3
  let question_count := qt.data.count '?'
  let single_question_score : ℚ :=
    if question_count = 1 then 1.0 else if question_count = 0 then 0.5 else 0.3
  let ambiguity_penalty : ℚ := max 0 (1.0 - (clarityAmbCount question_text : ℚ) * 0.2)
  let first5 := (pySplit (pyLower qt)).take 5
  let interrogative_score : ℚ :=
    if interrogativeWords.any (fun w => first5.contains w) then 1.0 else 0.6
  let negation_count := (negationWords.map (fun n => countOccur n.data (pyLower qt).data)).sum
  let negation_score : ℚ :=
    if negation_count = 0 then 1.0 else if negation_count = 1 then 0.9 else 0.5
  let clarity_score :=
    0.20 * length_score + 0.15 * question_mark_score + 0.15 * single_question_score +
      0.20 * ambiguity_penalty + 0.15 * interrogative_score + 0.15 * negation_score
  [("clarity", .num clarity_score),
   ("length_score", .num length_score),
   ("question_mark_score", .num question_mark_score),
   ("single_question_score", .num single_question_score),
   ("ambiguity_score", .num ambiguity_penalty),
   ("interrogative_score", .num interrogative_score),
   ("negation_clarity", .num negation_score),
   ("word_count", .num (word_count : ℚ))]

/-! ### C9: the ambiguity component -/

/-- The ambiguity count as claim C9 words it (spec side, for comparison):
the total number of occurrences of the listed words in the text, so that a
word occurring twice contributes 2. -/
def specAmbiguityOccurrences (s : String) : Nat :=
  (ambiguousWords.map
    (fun w => countOccur w.data (pyLower (normalizeWs s)).data)).sum

/-- C9 (counterexample): on `"maybe maybe"` the code counts the list entry
`"maybe"` once (membership, not occurrences) giving penalty `0.8`, while the
claim's occurrence count is 2, giving `max(0, 1 − 0.2·2) = 0.6`. -/
theorem c9_counterexample :
    bGet (calculate_clarity "maybe maybe") "ambiguity_score" = some (.num 0.8) ∧
      max 0 (1.0 - (specAmbiguityOccurrences "maybe maybe" : ℚ) * 0.2) = 0.6 ∧
      (0.8 : ℚ) ≠ 0.6 := by
  have h1 : clarityAmbCount "maybe maybe" = 1 := by decide
  have h2 : specAmbiguityOccurrences "maybe maybe" = 2 := by decide
  have h3 : bGet (calculate_clarity "maybe maybe") "ambiguity_score" =
      some (.num (max 0 (1.0 - (clarityAmbCount "maybe maybe" : ℚ) * 0.2))) := rfl
  refine ⟨?_, ?_, by norm_num⟩
  · rw [h3, h1]
    norm_num [max_def]
  · rw [h2]
    norm_num [max_def]

/-- C9 (amended): the ambiguity component of `calculate_clarity` equals
`max(0, 1 − 0.2 × count)` where `count` is the number of entries of the fixed
ambiguous-word list that occur at least once as a substring of the
(whitespace-normalized, lowercased) question text — each entry contributes at
most 1 however often it occurs. -/
theorem c9_ambiguity_component (s : String) :
    bGet (calculate_clarity s) "ambiguity_score" =
      some (.num (max 0 (1.0 - (clarityAmbCount s : ℚ) * 0.2))) := rfl

/-! ## `parse_question_block`: correct-answer extraction

The four `re.IGNORECASE` patterns tried in order are
`correct\s+answer[:\s]*([ABCD])`, `answer[:\s]*([ABCD])`,
`correct[:\s]*([ABCD])`, `\*\*([ABCD])\*\*`.  Matching is modelled on the
lowercased block (case-insensitivity), and each pattern is deterministic at a
given start position: the character classes `\s`, `[:\s]` and `[ABCD]` are
pairwise disjoint where they meet, so the greedy runs admit no backtracking.
`re.search` takes the leftmost matching position. -/

/-- `[:\s]`. -/
def wsColon (c : Char) : Bool := isWs c || c = ':'

/-- Match a literal at the head, returning the remainder. -/
def dropLit : List Char → List Char → Option (List Char)
  | [], s => some s
  | _ :: _, [] => none
  | p :: ps, c :: cs => if c = p then dropLit ps cs else none

/-- `([ABCD])` (on lowercased text) at the head. -/
def abcdLetter : List Char → Option Char
  | c :: _ => if c = 'a' ∨ c = 'b' ∨ c = 'c' ∨ c = 'd' then some c else none
  | [] => none

/-- `correct\s+answer[:\s]*([ABCD])` anchored at the start. -/
def matchP1At (s : List Char) : Option Char :=
  match dropLit "correct".data s with
  | none => none
  | some rest =>
    match rest with
    | c :: _ =>
      if isWs c then
        match dropLit "answer".data (rest.dropWhile isWs) with
        | none => none
        | some rest2 => abcdLetter (rest2.dropWhile wsColon)
      else none
    | [] => none

/-- `answer[:\s]*([ABCD])` anchored at the start. -/
def matchP2At (s : List Char) : Option Char :=
  match dropLit "answer".data s with
  | none => none
  | some rest => abcdLetter (rest.dropWhile wsColon)

/-- `correct[:\s]*([ABCD])` anchored at the start. -/
def matchP3At (s : List Char) : Option Char :=
  match dropLit "correct".data s with
  | none => none
  | some rest => abcdLetter (rest.dropWhile wsColon)

/-- `\*\*([ABCD])\*\*` anchored at the start. -/
def matchP4At (s : List Char) : Option Char :=
  match s with
  | '*' :: '*' :: c :: '*' :: '*' :: _ =>
    if c = 'a' ∨ c = 'b' ∨ c = 'c' ∨ c = 'd' then some c else none
  | _ => none

/-- `re.search`: first start position (left to right) where the anchored
matcher succeeds. -/
def searchPat (m : List Char → Option Char) : List Char → Option Char
  | [] => m []
  | c :: cs =>
    match m (c :: cs) with
    | some r => some r
    | none => searchPat m cs

def lowerData (s : String) : List Char := (pyLower s).data

/-- The correct-answer extraction step of `parse_question_block`: the
patterns are tried in order, the first `re.search` hit wins and its captured
letter is uppercased; if none matches the field stays `None` (it is
initialized to `None` and never defaulted). -/
def parseCorrectAnswer (block : String) : Option Char :=
  match searchPat matchP1At (lowerData block) with
  | some c => some c.toUpper
  | none =>
    match searchPat matchP2At (lowerData block) with
    | some c => some c.toUpper
    | none =>
      match searchPat matchP3At (lowerData block) with
      | some c => some c.toUpper
      | none => (searchPat matchP4At (lowerData block)).map Char.toUpper

/-! ### C7 -/

/-- C7: `correct_answer` is unset exactly when none of the four ordered
case-insensitive answer patterns matches anywhere in the block (never
defaulted to `"A"`), and when some pattern matches, the first matching
pattern of the ordered list determines the result. -/
theorem c7_unset_and_first_pattern_wins (block : String) :
    (parseCorrectAnswer block = none ↔
      searchPat matchP1At (lowerData block) = none ∧
        searchPat matchP2At (lowerData block) = none ∧
        searchPat matchP3At (lowerData block) = none ∧
        searchPat matchP4At (lowerData block) = none) ∧
    (∀ c, searchPat matchP1At (lowerData block) = some c →
      parseCorrectAnswer block = some c.toUpper) ∧
    (∀ c, searchPat matchP1At (lowerData block) = none →
      searchPat matchP2At (lowerData block) = some c →
      parseCorrectAnswer block = some c.toUpper) ∧
    (∀ c, searchPat matchP1At (lowerData block) = none →
      searchPat matchP2At (lowerData block) = none →
      searchPat matchP3At (lowerData block) = some c →
      parseCorrectAnswer block = some c.toUpper) ∧
    (∀ c, searchPat matchP1At (lowerData block) = none →
      searchPat matchP2At (lowerData block) = none →
      searchPat matchP3At (lowerData block) = none →
      searchPat matchP4At (lowerData block) = some c →
      parseCorrectAnswer block = some c.toUpper) := by
  cases h1 : searchPat matchP1At (lowerData block) <;>
    cases h2 : searchPat matchP2At (lowerData block) <;>
      cases h3 : searchPat matchP3At (lowerData block) <;>
        cases h4 : searchPat matchP4At (lowerData block) <;>
          simp [parseCorrectAnswer, h1, h2, h3, h4]

/-- C7 witness: a block with no answer marker (the spec's "missing Correct
answer" test) parses with `correct_answer` unset, via the theorem. -/
theorem c7_unset_witness :
    parseCorrectAnswer "Question 1: What is X?\nA) foo\nB) bar" = none :=
  (c7_unset_and_first_pattern_wins "Question 1: What is X?\nA) foo\nB) bar").1.mpr
    (by decide)

/-! ## `calculate_sos` -/

/-- One pairwise Jaccard similarity of `calculate_sos` (guarded against an
empty union). -/
def sosSim (a b : String) : ℚ :=
  let words_i := tokenSet a
  let words_j := tokenSet b
  let intersection := (words_i ∩ words_j).card
  let union := (words_i ∪ words_j).card
  if 0 < union then (intersection : ℚ) / (union : ℚ) else 0

/-- The double loop `for i in range(n): for j in range(i+1, n)` collecting
pairwise similarities in order. -/
def pairSims : List String → List ℚ
  | [] => []
  | x :: xs => xs.map (sosSim x) ++ pairSims xs

/-- `avg_similarity`: average of the pairwise similarities, `0` on an empty
list of pairs. -/
def sosAvg (options : List String) : ℚ :=
  let sims := pairSims options
  if sims.isEmpty then 0 else sims.sum / (sims.length : ℚ)

/-- `calculate_sos`. -/
def calculate_sos (options : List String) : List (String × MetricValue) :=
  if options.length < 2 then [("SOS", .num 0), ("option_diversity", .num 0)]
  else
    let sims := pairSims options
    let avg := if sims.isEmpty then 0 else sims.sum / (sims.length : ℚ)
    [("SOS", .num avg),
     ("option_diversity", .num (1.0 - avg)),
     ("pairwise_similarities", .list sims),
     ("num_pairs", .num (sims.length : ℚ))]

/-! ### C8 -/

/-- C8 (counterexample): for fewer than two options (here the empty list)
`calculate_sos` returns `SOS = 0.0` *and* `option_diversity = 0.0`, so
`option_diversity` is not `1 − SOS` for every list of options as claimed. -/
theorem c8_counterexample :
    bGet (calculate_sos []) "SOS" = some (.num 0) ∧
      bGet (calculate_sos []) "option_diversity" = some (.num 0) ∧
      (0 : ℚ) ≠ 1.0 - 0 := by
  exact ⟨rfl, rfl, by norm_num⟩

theorem sosSim_self_of_nonempty {a : String} (h : (tokenSet a).Nonempty) :
    sosSim a a = 1 := by
  have hcard : 0 < (tokenSet a).card := Finset.card_pos.mpr h
  have hpos : 0 < ((tokenSet a) ∪ (tokenSet a)).card := by
    rwa [Finset.union_self]
  simp only [sosSim, Finset.inter_self, Finset.union_self, if_pos hcard]
  exact div_self (by positivity)

theorem sosSim_of_disjoint {a b : String}
    (h : Disjoint (tokenSet a) (tokenSet b)) : sosSim a b = 0 := by
  have hi : (tokenSet a ∩ tokenSet b).card = 0 := by
    rw [Finset.disjoint_iff_inter_eq_empty.mp h]
    rfl
  simp only [sosSim, hi]
  split <;> simp

theorem pairSims_all_zero {options : List String}
    (h : options.Pairwise (fun a b => Disjoint (tokenSet a) (tokenSet b))) :
    ∀ q ∈ pairSims options, q = 0 := by
  induction options with
  | nil => simp [pairSims]
  | cons x xs ih =>
    rw [List.pairwise_cons] at h
    intro q hq
    rw [pairSims, List.mem_append] at hq
    rcases hq with hq | hq
    · obtain ⟨b, hb, rfl⟩ := List.mem_map.mp hq
      exact sosSim_of_disjoint (h.1 b hb)
    · exact ih h.2 q hq

/-- C8 (amended): for every list of at least two options, `calculate_sos`
returns `SOS` = the average pairwise Jaccard similarity over all option pairs
and `option_diversity = 1 − SOS`; two identical option strings with a
nonempty token set give average similarity 1 (hence diversity 0), and options
with pairwise disjoint vocabularies give average similarity 0 (hence
diversity 1).  (With fewer than two options both `SOS` and `option_diversity`
are 0 — see the counterexample.) -/
theorem c8_sos_diversity_relation (options : List String) (h : 2 ≤ options.length) :
    (bGet (calculate_sos options) "SOS" = some (.num (sosAvg options)) ∧
      bGet (calculate_sos options) "option_diversity" =
        some (.num (1.0 - sosAvg options))) ∧
    (∀ a, options = [a, a] → (tokenSet a).Nonempty → sosAvg options = 1) ∧
    ((options.Pairwise fun a b => Disjoint (tokenSet a) (tokenSet b)) →
      sosAvg options = 0) := by
  have hlt : ¬options.length < 2 := by omega
  refine ⟨⟨?_, ?_⟩, ?_, ?_⟩
  · simp [calculate_sos, if_neg hlt, bGet, sosAvg]
  · simp [calculate_sos, if_neg hlt, bGet, sosAvg]
  · rintro a rfl hne
    have h1 : pairSims [a, a] = [sosSim a a] := rfl
    simp [sosAvg, h1, sosSim_self_of_nonempty hne]
  · intro hdisj
    have hz := pairSims_all_zero hdisj
    have hs : (pairSims options).sum = 0 := List.sum_eq_zero hz
    simp only [sosAvg]
    rw [hs]
    split <;> simp

/-- C8 witness: two identical nonempty options, via the theorem — similarity
1 and diversity 0. -/
theorem c8_identical_witness :
    bGet (calculate_sos ["same", "same"]) "option_diversity" = some (.num 0) := by
  have h := c8_sos_diversity_relation ["same", "same"] (by decide)
  have h1 : sosAvg ["same", "same"] = 1 := h.2.1 "same" rfl (by decide)
  rw [h.1.2, h1]
  norm_num

/-! ## `calculate_relevance` -/

def stopWordsRelevance : Finset String :=
  (["the", "a", "an", "and", "or", "but", "in", "on", "at", "to", "for",
    "of", "with", "is", "are", "was", "were", "what", "which", "how"] :
    List String).toFinset

/-- `calculate_relevance`.  Python `if knowledge_base` is truthiness: `None`
and the empty string both take the neutral `0.5` branch. -/
def calculate_relevance (question_text : String) (options : List String)
    (knowledge_base : Option String) : List (String × MetricValue) :=
  let question_keywords := tokenSet question_text \ stopWordsRelevance
  let option_relevance_scores := options.map (fun option =>
    let option_words := tokenSet option \ stopWordsRelevance
    let overlap := (question_keywords ∩ option_words).card
    let total := (question_keywords ∪ option_words).card
    if 0 < total then (overlap : ℚ) / (total : ℚ) else 0)
  let avg_option_relevance : ℚ :=
    if option_relevance_scores.isEmpty then 0
    else option_relevance_scores.sum / (option_relevance_scores.length : ℚ)
  let kb_relevance : ℚ :=
    match knowledge_base with
    | some kb =>
      if kb = "" then 0.5
      else
        let kb_words := tokenSet kb \ stopWordsRelevance
        let kb_overlap := (question_keywords ∩ kb_words).card
        if question_keywords.Nonempty then
          min ((kb_overlap : ℚ) / (question_keywords.card : ℚ)) 1.0
        else 0
    | none => 0.5
  let avg_word_length : ℚ :=
    if question_keywords.Nonempty then
      (question_keywords.sum (fun w => (w.length : ℚ))) / (question_keywords.card : ℚ)
    else 0
  let technical_score : ℚ := min (avg_word_length / 8) 1.0
  let consistency_score : ℚ :=
    if option_relevance_scores.isEmpty then 0
    else
      let relevance_variance :=
        (option_relevance_scores.map (fun s => (s - avg_option_relevance) ^ 2)).sum /
          (option_relevance_scores.length : ℚ)
      1.0 - min relevance_variance 1.0
  let relevance_score :=
    0.35 * avg_option_relevance + 0.25 * kb_relevance +
      0.20 * technical_score + 0.20 * consistency_score
  [("relevance", .num relevance_score),
   ("option_relevance", .num avg_option_relevance),
   ("knowledge_base_relevance", .num kb_relevance),
   ("technical_terminology", .num technical_score),
   ("option_consistency", .num consistency_score)]

/-! ## `calculate_readability_level` -/

/-- `re.sub(r'[^\w\s.]', ' ', text)` (ASCII `\w`). -/
def cleanForReadability (s : String) : String :=
  (s.data.map (fun c =>
    if c.isAlpha || c.isDigit || c = '_' || isWs c || c = '.' then c else ' ')).asString

def isVowel (c : Char) : Bool :=
  c = 'a' || c = 'e' || c = 'i' || c = 'o' || c = 'u' || c = 'y'

def sylGo : Bool → List Char → Nat
  | _, [] => 0
  | prev, c :: cs => (if isVowel c && !prev then 1 else 0) + sylGo (isVowel c) cs

/-- `count_syllables`: vowel groups, minus a trailing silent `e`, floored at 1. -/
def countSyllables (w : String) : Nat :=
  let wl := w.data.map Char.toLower
  let n := sylGo false wl
  let n := if wl.getLast? = some 'e' then n - 1 else n
  if n = 0 then 1 else n

/-- Round half to even (`round(x, ndigits)` on the exact value; Python rounds
the nearest binary double, which agrees on these reported-only values up to
the double's precision). -/
def roundHalfEven (x : ℚ) : ℤ :=
  let f := x.floor
  let r := x - (f : ℚ)
  if r < 1/2 then f
  else if 1/2 < r then f + 1
  else if f % 2 = 0 then f else f + 1

def pyRound2 (x : ℚ) : ℚ := (roundHalfEven (x * 100) : ℚ) / 100

def pyRound1 (x : ℚ) : ℚ := (roundHalfEven (x * 10) : ℚ) / 10

/-- `calculate_readability_level`. -/
def calculate_readability_level (text : String) : List (String × MetricValue) :=
  let cleaned := cleanForReadability text
  let sentences :=
    ((splitOnChar '.' cleaned.data).map (fun cs => pyStrip cs.asString)).filter
      (fun x => !x.isEmpty)
  let words := pySplit cleaned
  if sentences.isEmpty || words.isEmpty then
    [("flesch_kincaid_grade", .num 0),
     ("flesch_reading_ease", .num 0),
     ("readability_level", .str "Unknown"),
     ("avg_sentence_length", .num 0),
     ("avg_syllables_per_word", .num 0)]
  else
    let total_syllables := (words.map countSyllables).sum
    let num_sentences := sentences.length
    let num_words := words.length
    let avg_sentence_length : ℚ := (num_words : ℚ) / (num_sentences : ℚ)
    let avg_syllables_per_word : ℚ := (total_syllables : ℚ) / (num_words : ℚ)
    let fk_grade : ℚ :=
      if 0 < num_sentences ∧ 0 < num_words then
        max 0 (0.39 * ((num_words : ℚ) / (num_sentences : ℚ)) +
          11.8 * ((total_syllables : ℚ) / (num_words : ℚ)) - 15.59)
      else 0
    let flesch_ease : ℚ :=
      if 0 < num_sentences ∧ 0 < num_words then
        max 0 (min 100 (206.835 - 1.015 * ((num_words : ℚ) / (num_sentences : ℚ)) -
          84.6 * ((total_syllables : ℚ) / (num_words : ℚ))))
      else 0
    let level :=
      if fk_grade < 6 then "Elementary (Grades 1-5)"
      else if fk_grade < 9 then "Middle School (Grades 6-8)"
      else if fk_grade < 13 then "High School (Grades 9-12)"
      else if fk_grade < 16 then "College (Undergraduate)"
      else "Graduate/Professional"
    [("flesch_kincaid_grade", .num (pyRound2 fk_grade)),
     ("flesch_reading_ease", .num (pyRound2 flesch_ease)),
     ("readability_level", .str level),
     ("avg_sentence_length", .num (pyRound2 avg_sentence_length)),
     ("avg_syllables_per_word", .num (pyRound2 avg_syllables_per_word))]

/-! ## `calculate_dps` -/

/-- `calculate_dps` (the `knowledge_base` parameter is accepted and unused,
as in the source). -/
def calculate_dps (question correct_answer : String) (distractors : List String)
    (knowledge_base : Option String) : List (String × MetricValue) :=
  if distractors.isEmpty then [("DPS", .num 0)]
  else
    let question_words := tokenSet question
    let correct_words := tokenSet correct_answer
    let dps_scores := distractors.map (fun distractor =>
      let distractor_words := tokenSet distractor
      let q_similarity : ℚ :=
        if (question_words ∪ distractor_words).Nonempty then
          ((question_words ∩ distractor_words).card : ℚ) /
            ((question_words ∪ distractor_words).card : ℚ)
        else 0
      let c_similarity : ℚ :=
        if (correct_words ∪ distractor_words).Nonempty then
          ((correct_words ∩ distractor_words).card : ℚ) /
            ((correct_words ∪ distractor_words).card : ℚ)
        else 0
      0.7 * q_similarity + 0.3 * c_similarity)
    let avg_dps : ℚ :=
      if dps_scores.isEmpty then 0 else dps_scores.sum / (dps_scores.length : ℚ)
    [("DPS", .num avg_dps),
     ("DPS_per_distractor", .list dps_scores),
     ("num_distractors", .num (distractors.length : ℚ))]

/-! ## `calculate_distractor_quality_detailed` -/

def stopWordsShort : Finset String :=
  (["the", "a", "an", "and", "or", "but", "in", "on", "at", "to", "for",
    "of", "with"] : List String).toFinset

def obviousPatterns : List String :=
  ["all of the above", "none of the above", "both a and b", "neither",
   "cannot be determined", "not enough information", "a and b", "b and c",
   "a and c"]

/-- `calculate_distractor_quality_detailed`. -/
def calculate_distractor_quality_detailed (question correct_answer : String)
    (distractors : List String) : List (String × MetricValue) :=
  if distractors.isEmpty then [("distractor_quality_detailed", .num 0)]
  else
    let all_options := correct_answer :: distractors
    let lengths := all_options.map (fun opt => ((pySplit opt).length : ℚ))
    let avg_length := lengths.sum / (lengths.length : ℚ)
    let length_variance :=
      (lengths.map (fun l => (l - avg_length) ^ 2)).sum / (lengths.length : ℚ)
    let homogeneity_score : ℚ := 1.0 / (1.0 + length_variance / 10)
    let first_words := all_options.map (fun opt =>
      match pySplit opt with
      | w :: _ => pyLower w
      | [] => "")
    let first_word_similarity : ℚ :=
      if first_words.isEmpty then 0
      else (first_words.toFinset.card : ℚ) / (first_words.length : ℚ)
    let parallelism_score : ℚ := 1.0 - first_word_similarity
    let pattern_penalties := distractors.map (fun d =>
      if obviousPatterns.any (fun pat => containsSub pat.data (pyLower d).data) then
        (0 : ℚ)
      else 1.0)
    let no_pattern_score : ℚ :=
      if pattern_penalties.isEmpty then 1.0
      else pattern_penalties.sum / (pattern_penalties.length : ℚ)
    let question_keywords := tokenSet question \ stopWordsShort
    let relevance_scores := distractors.map (fun d =>
      let dist_keywords := tokenSet d \ stopWordsShort
      let overlap := (question_keywords ∩ dist_keywords).card
      min ((overlap : ℚ) / ((max question_keywords.card 1 : Nat) : ℚ)) 1.0)
    let avg_relevance : ℚ :=
      if relevance_scores.isEmpty then 0
      else relevance_scores.sum / (relevance_scores.length : ℚ)
    let substantive_scores := distractors.map (fun d =>
      let word_count := (pySplit d).length
      if 10 ≤ word_count then (1.0 : ℚ)
      else if 5 ≤ word_count then 0.7
      else 0.3)
    let avg_substantive : ℚ :=
      if substantive_scores.isEmpty then 0
      else substantive_scores.sum / (substantive_scores.length : ℚ)
    let overall_quality :=
      0.25 * homogeneity_score + 0.20 * parallelism_score +
        0.25 * no_pattern_score + 0.15 * avg_relevance + 0.15 * avg_substantive
    [("distractor_quality_detailed", .num overall_quality),
     ("homogeneity", .num homogeneity_score),
     ("grammatical_parallelism", .num parallelism_score),
     ("no_obvious_patterns", .num no_pattern_score),
     ("keyword_relevance", .num avg_relevance),
     ("substantiveness", .num avg_substantive),
     ("avg_length", .num (pyRound1 avg_length)),
     ("length_variance", .num (pyRound2 length_variance))]

/-! ## `calculate_rationale_quality` -/

def stopWordsRationale : Finset String :=
  (["the", "a", "an", "and", "or", "but", "in", "on", "at", "to", "for",
    "of", "with", "is", "are", "was", "were", "this", "that", "it"] :
    List String).toFinset

def justificationWords : List String :=
  ["because", "since", "therefore", "thus", "hence", "as a result",
   "due to", "reason", "explains", "indicates"]

def educationalWords : List String :=
  ["process", "function", "mechanism", "principle", "concept", "means",
   "refers to", "defined as", "characterized by"]

def alternativeWords : List String :=
  ["however", "whereas", "while", "unlike", "incorrect", "wrong", "not",
   "other options", "alternatives"]

/-- `calculate_rationale_quality`. -/
def calculate_rationale_quality (rationale question correct_answer : String) :
    List (String × MetricValue) :=
  if rationale = "" ∨ (pyStrip rationale).length < 10 then
    [("rationale_quality", .num 0),
     ("length_score", .num 0),
     ("question_reference", .num 0),
     ("answer_justification", .num 0),
     ("educational_value", .num 0)]
  else
    let word_count := (pySplit rationale).length
    let length_score : ℚ :=
      if 20 ≤ word_count ∧ word_count ≤ 100 then 1.0
      else if (10 ≤ word_count ∧ word_count < 20) ∨
          (100 < word_count ∧ word_count ≤ 150) then 0.7
      else 0.4
    let rationale_keywords := tokenSet rationale
    let question_keywords := tokenSet question \ stopWordsRationale
    let overlap := (question_keywords ∩ rationale_keywords).card
    let question_reference_score : ℚ :=
      min ((overlap : ℚ) / ((max question_keywords.card 1 : Nat) : ℚ)) 1.0
    let justification_score : ℚ :=
      if justificationWords.any (fun w => containsSub w.data (pyLower rationale).data)
      then 1.0 else 0.5
    let correct_keywords := tokenSet correct_answer \ stopWordsRationale
    let answer_overlap := (correct_keywords ∩ rationale_keywords).card
    let answer_reference_score : ℚ :=
      min ((answer_overlap : ℚ) / ((max correct_keywords.card 1 : Nat) : ℚ)) 1.0
    let educational_count :=
      (educationalWords.filter
        (fun w => containsSub w.data (pyLower rationale).data)).length
    let educational_score : ℚ := min ((educational_count : ℚ) / 2) 1.0
    let alternative_score : ℚ :=
      if alternativeWords.any (fun w => containsSub w.data (pyLower rationale).data)
      then 1.0 else 0.7
    let rationale_quality :=
      0.20 * length_score + 0.20 * question_reference_score +
        0.20 * justification_score + 0.15 * answer_reference_score +
        0.15 * educational_score + 0.10 * alternative_score
    [("rationale_quality", .num rationale_quality),
     ("length_score", .num length_score),
     ("question_reference", .num question_reference_score),
     ("answer_justification", .num justification_score),
     ("answer_reference", .num answer_reference_score),
     ("educational_value", .num educational_score),
     ("addresses_alternatives", .num alternative_score),
     ("word_count", .num (word_count : ℚ))]

/-! ## `evaluate_question_comprehensive` -/

/-- A parsed question record, the input of the comprehensive evaluation. -/
structure QuestionData where
  question : String
  options : List String
  correct_answer : Option String
  explanation : String

/-- `results.update(bundle)`: keys of the new bundle win on lookup. -/
def updD (d : String → Option MetricValue) (b : List (String × MetricValue)) :
    String → Option MetricValue :=
  fun k =>
    match bGet b k with
    | some v => some v
    | none => d k

/-- `ord(correct_answer) - ord('A')`.  Python's `ord` requires a length-one
string; the records produced by the parser carry a single uppercase letter,
modelled here by the first character. -/
def ordIdx (ca : String) : ℤ :=
  match ca.data with
  | c :: _ => (c.toNat : ℤ) - 65
  | [] => 0

/-- `evaluate_question_comprehensive`, as the lookup function of the final
`results` dict.  Every `question_data.get(...)` guard is Python truthiness:
empty string, empty list and `None` are all falsy. -/
def evaluate_question_comprehensive (qd : QuestionData)
    (knowledge_base : Option String) : String → Option MetricValue :=
  let results0 : String → Option MetricValue := fun _ => none
  let results1 :=
    if qd.question ≠ "" then updD results0 (calculate_clarity qd.question)
    else results0
  let results2 :=
    if qd.question ≠ "" ∧ qd.options ≠ [] then
      updD results1 (calculate_relevance qd.question qd.options knowledge_base)
    else results1
  let full_text :=
    if qd.options ≠ [] then qd.question ++ " " ++ String.intercalate " " qd.options
    else qd.question
  let results3 :=
    if full_text ≠ "" then updD results2 (calculate_readability_level full_text)
    else results2
  let results4 :=
    match qd.correct_answer with
    | some ca =>
      if qd.options ≠ [] ∧ ca ≠ "" then
        let correct_idx := ordIdx ca
        if 0 ≤ correct_idx ∧ correct_idx < (qd.options.length : ℤ) then
          let correct_option := qd.options.getD correct_idx.toNat ""
          let distractors :=
            (qd.options.enum.filter (fun p => p.1 ≠ correct_idx.toNat)).map Prod.snd
          updD
            (updD results3
              (calculate_dps qd.question correct_option distractors knowledge_base))
            (calculate_distractor_quality_detailed qd.question correct_option distractors)
        else results3
      else results3
    | none => results3
  let results5 :=
    if qd.options ≠ [] then updD results4 (calculate_sos qd.options) else results4
  if qd.explanation ≠ "" then
    let correct_idx : ℤ :=
      match qd.correct_answer with
      | some ca => if ca ≠ "" then ordIdx ca else 0
      | none => 0
    let ca_text :=
      if qd.options ≠ [] ∧ 0 ≤ correct_idx ∧ correct_idx < (qd.options.length : ℤ) then
        qd.options.getD correct_idx.toNat ""
      else ""
    updD results5 (calculate_rationale_quality qd.explanation qd.question ca_text)
  else results5

/-! ### C10: rationale scoring without a correct answer -/

theorem bGet_clarity_no_dps (s : String) :
    bGet (calculate_clarity s) "DPS" = none := rfl

theorem bGet_clarity_no_dqd (s : String) :
    bGet (calculate_clarity s) "distractor_quality_detailed" = none := rfl

theorem bGet_relevance_no_dps (q : String) (o : List String) (kb : Option String) :
    bGet (calculate_relevance q o kb) "DPS" = none := rfl

theorem bGet_relevance_no_dqd (q : String) (o : List String) (kb : Option String) :
    bGet (calculate_relevance q o kb) "distractor_quality_detailed" = none := rfl

theorem bGet_readability_no_dps (t : String) :
    bGet (calculate_readability_level t) "DPS" = none := by
  simp only [calculate_readability_level]
  split <;> rfl

theorem bGet_readability_no_dqd (t : String) :
    bGet (calculate_readability_level t) "distractor_quality_detailed" = none := by
  simp only [calculate_readability_level]
  split <;> rfl

theorem bGet_sos_no_dps (o : List String) :
    bGet (calculate_sos o) "DPS" = none := by
  simp only [calculate_sos]
  split <;> rfl

theorem bGet_sos_no_dqd (o : List String) :
    bGet (calculate_sos o) "distractor_quality_detailed" = none := by
  simp only [calculate_sos]
  split <;> rfl

theorem bGet_rationale_no_dps (r q c : String) :
    bGet (calculate_rationale_quality r q c) "DPS" = none := by
  simp only [calculate_rationale_quality]
  split <;> rfl

theorem bGet_rationale_no_dqd (r q c : String) :
    bGet (calculate_rationale_quality r q c) "distractor_quality_detailed" = none := by
  simp only [calculate_rationale_quality]
  split <;> rfl

/-- With no correct answer recorded, a key emitted by none of the bundles
that still run (clarity, relevance, readability, SOS, rationale) is absent
from the final results. -/
theorem evaluate_no_key (qd : QuestionData) (kb : Option String) (key : String)
    (hca : qd.correct_answer = none)
    (h1 : ∀ s, bGet (calculate_clarity s) key = none)
    (h2 : ∀ q o k, bGet (calculate_relevance q o k) key = none)
    (h3 : ∀ t, bGet (calculate_readability_level t) key = none)
    (h5 : ∀ o, bGet (calculate_sos o) key = none)
    (h6 : ∀ r q c, bGet (calculate_rationale_quality r q c) key = none) :
    evaluate_question_comprehensive qd kb key = none := by
  simp only [evaluate_question_comprehensive, hca]
  split_ifs <;> simp [updD, h1, h2, h3, h5, h6]

/-- C10: on a record whose explanation is non-empty but whose correct answer
is unset, rationale scoring is not skipped: its metrics are computed with the
first option (or `""` when there are no options) standing in as the
correct-answer text and land in the results, while the DPS and detailed
distractor bundles are omitted. -/
theorem c10_rationale_fallback (qd : QuestionData) (kb : Option String)
    (hexp : qd.explanation ≠ "") (hca : qd.correct_answer = none) :
    (∀ k v,
      bGet (calculate_rationale_quality qd.explanation qd.question
        (qd.options.headD "")) k = some v →
      evaluate_question_comprehensive qd kb k = some v) ∧
    evaluate_question_comprehensive qd kb "DPS" = none ∧
    evaluate_question_comprehensive qd kb "distractor_quality_detailed" = none := by
  refine ⟨?_, ?_, ?_⟩
  · intro k v hv
    obtain ⟨q, opts, ca, ex⟩ := qd
    simp only at hexp hca hv
    subst hca
    cases opts with
    | nil =>
      simp only [List.headD] at hv
      simp only [evaluate_question_comprehensive]
      rw [if_pos hexp]
      simp [updD, hv]
    | cons o os =>
      simp only [List.headD] at hv
      simp only [evaluate_question_comprehensive]
      rw [if_pos hexp]
      have hcond : ((o :: os : List String) ≠ [] ∧ (0 : ℤ) ≤ 0 ∧
          (0 : ℤ) < ((o :: os : List String).length : ℤ)) := by
        refine ⟨by simp, le_refl _, ?_⟩
        simp
      rw [if_pos hcond]
      simp [updD, hv]
  · exact evaluate_no_key qd kb "DPS" hca bGet_clarity_no_dps
      bGet_relevance_no_dps bGet_readability_no_dps bGet_sos_no_dps
      bGet_rationale_no_dps
  · exact evaluate_no_key qd kb "distractor_quality_detailed" hca
      bGet_clarity_no_dqd bGet_relevance_no_dqd bGet_readability_no_dqd
      bGet_sos_no_dqd bGet_rationale_no_dqd

/-- C10 witness: a concrete record with an explanation and no correct
answer, via the theorem — the DPS key is absent from the results. -/
theorem c10_witness :
    evaluate_question_comprehensive
      ⟨"", ["alpha", "beta"], none, "This is a sufficiently long explanation"⟩
      none "DPS" = none :=
  (c10_rationale_fallback
    ⟨"", ["alpha", "beta"], none, "This is a sufficiently long explanation"⟩
    none (by decide) rfl).2.1

end DOTG
